import Mathlib

/-!
Shallow embedding of src/src/insanely_fast_whisper/utils/convert_object_to_srt.py.

Numeric inputs are modelled as exact rationals.  The Python expression
timedelta(seconds=s) converts s to a whole number of microseconds using
round-half-to-even (Python round), then normalises into whole days plus a
remainder in [0, 86400) seconds; the .seconds field is the whole seconds of
that remainder and the .microseconds field its microsecond part, so whole
days are discarded by format_time, which reads only those two fields.
Dynamic Python objects are modelled by the inductive type PyVal, and the
exceptions raised by subscripting, key lookup and attribute access are
modelled by Except String.
-/

/-- Nearest integer to q with ties to even: the rounding Python round
performs, applied by timedelta when converting seconds to microseconds. -/
def roundHalfEven (q : ℚ) : ℤ :=
  if q - ⌊q⌋ < 1/2 then ⌊q⌋
  else if 1/2 < q - ⌊q⌋ then ⌊q⌋ + 1
  else if ⌊q⌋ % 2 = 0 then ⌊q⌋ else ⌊q⌋ + 1

/-- Total microseconds held by timedelta(seconds=s). -/
def totalMicroseconds (s : ℚ) : ℤ := roundHalfEven (s * 1000000)

/-- Microseconds within the day: timedelta normalisation floors the day
count, leaving a remainder in [0, 86400000000). -/
def dayRemainderUs (s : ℚ) : ℕ := ((totalMicroseconds s).emod 86400000000).toNat

/-- The .seconds field of timedelta(seconds=s): whole seconds within the
day, in 0..86399. -/
def tdSeconds (s : ℚ) : ℕ := dayRemainderUs s / 1000000

/-- The .microseconds field of timedelta(seconds=s), in 0..999999. -/
def tdMicroseconds (s : ℚ) : ℕ := dayRemainderUs s % 1000000

/-- hours, remainder = divmod(time.seconds, 3600) -/
def hoursOf (s : ℚ) : ℕ := tdSeconds s / 3600

/-- minutes = divmod(remainder, 60)[0] -/
def minutesOf (s : ℚ) : ℕ := tdSeconds s % 3600 / 60

/-- seconds = divmod(remainder, 60)[1] -/
def secondsOf (s : ℚ) : ℕ := tdSeconds s % 3600 % 60

/-- milliseconds = int(time.microseconds / 1000) -/
def msOf (s : ℚ) : ℕ := tdMicroseconds s / 1000

/-- Python format spec 02d on a nonnegative integer. -/
def pad2 (n : ℕ) : String := if n < 10 then "0" ++ Nat.repr n else Nat.repr n

/-- Python format spec 03d on a nonnegative integer. -/
def pad3 (n : ℕ) : String :=
  if n < 10 then "00" ++ Nat.repr n
  else if n < 100 then "0" ++ Nat.repr n
  else Nat.repr n

/-- format_time from the source: builds HH:MM:SS,mmm from the timedelta
fields .seconds and .microseconds. -/
def format_time (s : ℚ) : String :=
  pad2 (hoursOf s) ++ ":" ++ pad2 (minutesOf s) ++ ":" ++ pad2 (secondsOf s)
    ++ "," ++ pad3 (msOf s)

/-- Dynamic Python values, restricted to the JSON-like shapes the script
manipulates: numbers, strings, lists, and string-keyed dicts. -/
inductive PyVal where
  | num (q : ℚ)
  | str (s : String)
  | list (xs : List PyVal)
  | dict (fields : List (String × PyVal))

/-- v[k] for a string key k: dict lookup, KeyError when absent, TypeError
when v is not a dict. -/
def pyGetKey (v : PyVal) (k : String) : Except String PyVal :=
  match v with
  | .dict fs =>
    match fs.lookup k with
    | some x => .ok x
    | none => .error ("KeyError: " ++ k)
  | _ => .error "TypeError: value is not subscriptable by a string key"

/-- v[i] for a nonnegative integer index i: list indexing, IndexError when
out of range, TypeError otherwise. -/
def pyGetIdx (v : PyVal) (i : ℕ) : Except String PyVal :=
  match v with
  | .list xs =>
    match xs.get? i with
    | some x => .ok x
    | none => .error "IndexError: list index out of range"
  | _ => .error "TypeError: value is not subscriptable by an integer index"

/-- timedelta(seconds=v) accepts a number; any other value raises
TypeError inside format_time. -/
def pyToSeconds (v : PyVal) : Except String ℚ :=
  match v with
  | .num q => .ok q
  | _ => .error "TypeError: unsupported type for timedelta seconds"

/-- Python str.strip(): removes leading and trailing whitespace characters
and leaves the interior, newlines included, untouched. -/
def stripString (s : String) : String :=
  ⟨((s.data.dropWhile Char.isWhitespace).reverse.dropWhile
    Char.isWhitespace).reverse⟩

/-- v.strip(): defined on strings, AttributeError otherwise. -/
def pyStrip (v : PyVal) : Except String String :=
  match v with
  | .str s => .ok (stripString s)
  | _ => .error "AttributeError: value has no attribute strip"

/-- Python str.join on a list of strings, with the given separator. -/
def pyJoin (sep : String) : List String → String
  | [] => ""
  | [x] => x
  | x :: xs => x ++ sep ++ pyJoin sep (xs)

/-- The body of one iteration of the loop in convert_object_to_srt:
evaluates, in source order, format_time(chunk["timestamp"][0]),
format_time(chunk["timestamp"][1]) and chunk["text"].strip(), then builds
the block string of the f-string, index first, a trailing newline last.
Any lookup, index, type or attribute failure aborts with the error. -/
def formatChunk (i : ℕ) (chunk : PyVal) : Except String String :=
  match pyGetKey chunk "timestamp" with
  | .error e => .error e
  | .ok ts =>
    match pyGetIdx ts 0 with
    | .error e => .error e
    | .ok v0 =>
      match pyToSeconds v0 with
      | .error e => .error e
      | .ok q0 =>
        match pyGetIdx ts 1 with
        | .error e => .error e
        | .ok v1 =>
          match pyToSeconds v1 with
          | .error e => .error e
          | .ok q1 =>
            match pyGetKey chunk "text" with
            | .error e => .error e
            | .ok tv =>
              match pyStrip tv with
              | .error e => .error e
              | .ok t =>
                .ok (Nat.repr i ++ "\n" ++ format_time q0 ++ " --> "
                  ++ format_time q1 ++ "\n" ++ t ++ "\n")

/-- The loop of convert_object_to_srt: subtitle_index starts at i and
increases by one per chunk; the first error aborts the whole loop. -/
def convertChunks (i : ℕ) : List PyVal → Except String (List String)
  | [] => .ok []
  | c :: cs =>
    match formatChunk i c with
    | .error e => .error e
    | .ok b =>
      match convertChunks (i + 1) cs with
      | .error e => .error e
      | .ok bs => .ok (b :: bs)

/-- convert_object_to_srt from the source: reads data["chunks"], iterates
the chunk loop with subtitle_index starting at 1, and joins the collected
block strings with a newline. -/
def convert_object_to_srt (data : PyVal) : Except String String :=
  match pyGetKey data "chunks" with
  | .error e => .error e
  | .ok chunks =>
    match chunks with
    | .list cs =>
      match convertChunks 1 cs with
      | .error e => .error e
      | .ok blocks => .ok (pyJoin "\n" blocks)
    | _ => .error "TypeError: chunks value is not iterable as a list"

/-- Result of one run of process_object: the content written to the output
file, when any, and the message printed to the reporting channel. -/
structure ProcResult where
  written : Option String
  message : String

/-- process_object from the source: the try block converts and then writes
the file; fs is the outcome the file system gives to the open and write
calls; every exception is caught by the except handler, which prints the
diagnostic instead of letting it escape. -/
def process_object (data : PyVal) (fs : Except String Unit) : ProcResult :=
  match convert_object_to_srt data with
  | .error e => ⟨none, "Error processing data: " ++ e⟩
  | .ok srt =>
    match fs with
    | .error e => ⟨none, "Error processing data: " ++ e⟩
    | .ok _ => ⟨some srt, "SRT file has been saved successfully."⟩

/-- A well-formed chunk, as the spec describes it: a timestamp pair of
numbers and a text string. -/
structure SChunk where
  ts0 : ℚ
  ts1 : ℚ
  text : String

/-- The well-formed reading of a chunk object: a "timestamp" entry with
numbers at positions 0 and 1 and a string "text" entry. -/
def chunkView (c : PyVal) : Option SChunk :=
  match pyGetKey c "timestamp" with
  | .ok ts =>
    match pyGetIdx ts 0 with
    | .ok (.num a) =>
      match pyGetIdx ts 1 with
      | .ok (.num b) =>
        match pyGetKey c "text" with
        | .ok (.str t) => some ⟨a, b, t⟩
        | _ => none
      | _ => none
    | _ => none
  | _ => none

/-- The well-formed reading of a chunk list. -/
def viewChunks : List PyVal → Option (List SChunk)
  | [] => some []
  | c :: cs =>
    match chunkView c, viewChunks cs with
    | some v, some vs => some (v :: vs)
    | _, _ => none

/-- Modelled from the spec: one SrtBlock rendered as three lines, the
1-based index, the time range, and the trimmed text, with no terminator. -/
def specBlock (i : ℕ) (c : SChunk) : String :=
  Nat.repr i ++ "\n" ++ format_time c.ts0 ++ " --> " ++ format_time c.ts1
    ++ "\n" ++ stripString c.text

/-- Modelled from the spec: the blocks of a chunk list, indices sequential
from k. -/
def specBlocks (k : ℕ) : List SChunk → List String
  | [] => []
  | c :: cs => specBlock k c :: specBlocks (k + 1) cs

/-- Modelled from the spec: the SrtDocument, blocks starting at index 1,
a blank line between consecutive blocks (so the text line of one block is
followed by its line terminator, one empty line and the next index line),
the last block closed by its line terminator alone, and the empty chunk
sequence rendered as the empty string. -/
def srtSpec : List SChunk → String
  | [] => ""
  | cs => pyJoin "\n\n" (specBlocks 1 cs) ++ "\n"

/-- A timestamp value without a numeric element at position 0 and a
numeric element at position 1. -/
def tsBad (ts : PyVal) : Bool :=
  match pyGetIdx ts 0, pyGetIdx ts 1 with
  | .ok (.num _), .ok (.num _) => false
  | _, _ => true

/-- A chunk with one of the structural faults the spec lists: missing
timestamp entry, missing text entry, or a bad timestamp shape. -/
def chunkStructBad (c : PyVal) : Bool :=
  match pyGetKey c "timestamp" with
  | .error _ => true
  | .ok ts =>
    match pyGetKey c "text" with
    | .error _ => true
    | .ok _ => tsBad ts

/-- The example input of the module demo block, restricted to its first
two chunks as in the end-to-end scenario of the spec. -/
def exampleData : PyVal :=
  .dict [("speakers", .list []),
    ("chunks", .list
      [.dict [("timestamp", .list [.num 0, .num (5.5 : ℚ)]),
              ("text", .str "Hello, this is the first subtitle.")],
       .dict [("timestamp", .list [.num 6, .num (10.2 : ℚ)]),
              ("text", .str "And this is the second one.")]])]

/-- The chunk objects of exampleData. -/
def exampleChunks : List PyVal :=
  [.dict [("timestamp", .list [.num 0, .num (5.5 : ℚ)]),
          ("text", .str "Hello, this is the first subtitle.")],
   .dict [("timestamp", .list [.num 6, .num (10.2 : ℚ)]),
          ("text", .str "And this is the second one.")]]

/-- The well-formed view of exampleChunks. -/
def exampleViews : List SChunk :=
  [⟨0, 5.5, "Hello, this is the first subtitle."⟩,
   ⟨6, 10.2, "And this is the second one."⟩]

lemma formatChunk_view (i : ℕ) (c : PyVal) (v : SChunk)
    (h : chunkView c = some v) :
    formatChunk i c = .ok (specBlock i v ++ "\n") := by
  cases hts : pyGetKey c "timestamp" with
  | error e => simp [chunkView, hts] at h
  | ok ts =>
    cases h0 : pyGetIdx ts 0 with
    | error e => simp [chunkView, hts, h0] at h
    | ok v0 =>
      cases v0 with
      | num a =>
        cases h1 : pyGetIdx ts 1 with
        | error e => simp [chunkView, hts, h0, h1] at h
        | ok v1 =>
          cases v1 with
          | num b =>
            cases htx : pyGetKey c "text" with
            | error e => simp [chunkView, hts, h0, h1, htx] at h
            | ok tv =>
              cases tv with
              | str t =>
                simp only [chunkView, hts, h0, h1, htx, Option.some.injEq] at h
                subst h
                simp only [formatChunk, hts, h0, h1, htx, pyToSeconds, pyStrip,
                  specBlock, String.append_assoc]
              | num q => simp [chunkView, hts, h0, h1, htx] at h
              | list xs => simp [chunkView, hts, h0, h1, htx] at h
              | dict fs => simp [chunkView, hts, h0, h1, htx] at h
          | str s => simp [chunkView, hts, h0, h1] at h
          | list xs => simp [chunkView, hts, h0, h1] at h
          | dict fs => simp [chunkView, hts, h0, h1] at h
      | str s => simp [chunkView, hts, h0] at h
      | list xs => simp [chunkView, hts, h0] at h
      | dict fs => simp [chunkView, hts, h0] at h

lemma convertChunks_view (cs : List PyVal) (vs : List SChunk)
    (h : viewChunks cs = some vs) (k : ℕ) :
    convertChunks k cs = .ok ((specBlocks k vs).map fun b => b ++ "\n") := by
  induction cs generalizing vs k with
  | nil =>
    unfold viewChunks at h
    simp only [Option.some.injEq] at h
    subst h
    rfl
  | cons c cs ih =>
    unfold viewChunks at h
    cases hv : chunkView c with
    | none => rw [hv] at h; exact absurd h (by simp)
    | some v =>
      rw [hv] at h
      cases hvs : viewChunks cs with
      | none => rw [hvs] at h; exact absurd h (by simp)
      | some ws =>
        rw [hvs] at h
        simp only [Option.some.injEq] at h
        subst h
        unfold convertChunks
        rw [formatChunk_view k c v hv, ih ws hvs (k + 1)]
        rfl

lemma pyJoin_terminated (b : String) (bs : List String) :
    pyJoin "\n" ((b :: bs).map fun x => x ++ "\n") =
      pyJoin "\n\n" (b :: bs) ++ "\n" := by
  induction bs generalizing b with
  | nil => rfl
  | cons c cs ih =>
    show (b ++ "\n") ++ "\n" ++ pyJoin "\n" ((c :: cs).map fun x => x ++ "\n")
      = (b ++ "\n\n" ++ pyJoin "\n\n" (c :: cs)) ++ "\n"
    rw [ih c]
    simp only [String.append_assoc]
    rfl

/-- Refinement core: on a well-formed input object the converter returns
the spec rendering of the viewed chunks. -/
lemma convert_view (data : PyVal) (cs : List PyVal) (vs : List SChunk)
    (h1 : pyGetKey data "chunks" = .ok (.list cs))
    (h2 : viewChunks cs = some vs) :
    convert_object_to_srt data = .ok (srtSpec vs) := by
  have hb := convertChunks_view cs vs h2 1
  simp only [convert_object_to_srt, h1, hb]
  cases vs with
  | nil =>
    cases cs with
    | nil => rfl
    | cons c cs =>
      exfalso
      cases hv : chunkView c with
      | none => simp [viewChunks, hv] at h2
      | some v =>
        cases hvs : viewChunks cs with
        | none => simp [viewChunks, hv, hvs] at h2
        | some ws => simp [viewChunks, hv, hvs] at h2
  | cons v ws =>
    show Except.ok (pyJoin "\n" ((specBlocks 1 (v :: ws)).map fun b => b ++ "\n")) =
      Except.ok (srtSpec (v :: ws))
    rw [show specBlocks 1 (v :: ws) = specBlock 1 v :: specBlocks 2 ws from rfl,
      pyJoin_terminated]
    rfl

lemma viewChunks_length (cs : List PyVal) (vs : List SChunk)
    (h : viewChunks cs = some vs) : vs.length = cs.length := by
  induction cs generalizing vs with
  | nil =>
    simp only [viewChunks, Option.some.injEq] at h
    subst h
    rfl
  | cons c cs ih =>
    cases hv : chunkView c with
    | none => simp [viewChunks, hv] at h
    | some v =>
      cases hvs : viewChunks cs with
      | none => simp [viewChunks, hv, hvs] at h
      | some ws =>
        simp only [viewChunks, hv, hvs, Option.some.injEq] at h
        subst h
        simp [ih ws hvs]

lemma specBlocks_length (k : ℕ) (vs : List SChunk) :
    (specBlocks k vs).length = vs.length := by
  induction vs generalizing k with
  | nil => rfl
  | cons v ws ih => simp [specBlocks, ih]

lemma specBlocks_get (k i : ℕ) (vs : List SChunk) (h : i < vs.length) :
    ∃ v, (specBlocks k vs).get? i = some (specBlock (k + i) v) := by
  induction vs generalizing k i with
  | nil => exact absurd h (by simp)
  | cons v ws ih =>
    cases i with
    | zero => exact ⟨v, rfl⟩
    | succ j =>
      obtain ⟨w, hw⟩ := ih (k + 1) j (by simpa using h)
      refine ⟨w, ?_⟩
      show (specBlocks (k + 1) ws).get? j = some (specBlock (k + (j + 1)) w)
      rw [hw]
      congr 2
      omega

lemma formatChunk_bad (i : ℕ) (c : PyVal) (h : chunkStructBad c = true) :
    ∃ e, formatChunk i c = .error e := by
  cases hts : pyGetKey c "timestamp" with
  | error e => exact ⟨e, by simp [formatChunk, hts]⟩
  | ok ts =>
    cases h0 : pyGetIdx ts 0 with
    | error e => exact ⟨e, by simp [formatChunk, hts, h0]⟩
    | ok v0 =>
      cases v0 with
      | num a =>
        cases h1 : pyGetIdx ts 1 with
        | error e => exact ⟨e, by simp [formatChunk, hts, h0, h1, pyToSeconds]⟩
        | ok v1 =>
          cases v1 with
          | num b =>
            cases htx : pyGetKey c "text" with
            | error e =>
              exact ⟨e, by simp [formatChunk, hts, h0, h1, htx, pyToSeconds]⟩
            | ok tv =>
              exfalso
              simp [chunkStructBad, hts, htx, tsBad, h0, h1] at h
          | str s =>
            exact ⟨"TypeError: unsupported type for timedelta seconds",
              by simp [formatChunk, hts, h0, h1, pyToSeconds]⟩
          | list xs =>
            exact ⟨"TypeError: unsupported type for timedelta seconds",
              by simp [formatChunk, hts, h0, h1, pyToSeconds]⟩
          | dict fs =>
            exact ⟨"TypeError: unsupported type for timedelta seconds",
              by simp [formatChunk, hts, h0, h1, pyToSeconds]⟩
      | str s =>
        exact ⟨"TypeError: unsupported type for timedelta seconds",
          by simp [formatChunk, hts, h0, pyToSeconds]⟩
      | list xs =>
        exact ⟨"TypeError: unsupported type for timedelta seconds",
          by simp [formatChunk, hts, h0, pyToSeconds]⟩
      | dict fs =>
        exact ⟨"TypeError: unsupported type for timedelta seconds",
          by simp [formatChunk, hts, h0, pyToSeconds]⟩

lemma convertChunks_bad (cs : List PyVal) (c : PyVal) (hc : c ∈ cs)
    (hb : chunkStructBad c = true) (k : ℕ) :
    ∃ e, convertChunks k cs = .error e := by
  induction cs generalizing k with
  | nil => cases hc
  | cons d ds ih =>
    cases hc with
    | head =>
      obtain ⟨e, he⟩ := formatChunk_bad k c hb
      exact ⟨e, by simp [convertChunks, he]⟩
    | tail _ hmem =>
      cases hf : formatChunk k d with
      | error e => exact ⟨e, by simp [convertChunks, hf]⟩
      | ok b =>
        obtain ⟨e, he⟩ := ih hmem (k + 1)
        exact ⟨e, by simp [convertChunks, hf, he]⟩

/-- Evaluation helper: when s is a whole number of microseconds, the
rounding is the identity. -/
lemma totalMicroseconds_of_int (s : ℚ) (n : ℤ) (h : s * 1000000 = (n : ℚ)) :
    totalMicroseconds s = n := by
  unfold totalMicroseconds roundHalfEven
  rw [h]
  simp

lemma ft_zero : format_time 0 = "00:00:00,000" := by
  have h : totalMicroseconds (0 : ℚ) = 0 := totalMicroseconds_of_int _ _ (by norm_num)
  simp only [format_time, hoursOf, minutesOf, secondsOf, msOf, tdSeconds,
    tdMicroseconds, dayRemainderUs, h]
  decide

lemma ft_one : format_time 1 = "00:00:01,000" := by
  have h : totalMicroseconds (1 : ℚ) = 1000000 := totalMicroseconds_of_int _ _ (by norm_num)
  simp only [format_time, hoursOf, minutesOf, secondsOf, msOf, tdSeconds,
    tdMicroseconds, dayRemainderUs, h]
  decide

lemma ft_five_and_half : format_time (5.5 : ℚ) = "00:00:05,500" := by
  have h : totalMicroseconds (5.5 : ℚ) = 5500000 := totalMicroseconds_of_int _ _ (by norm_num)
  simp only [format_time, hoursOf, minutesOf, secondsOf, msOf, tdSeconds,
    tdMicroseconds, dayRemainderUs, h]
  decide

lemma ft_six : format_time 6 = "00:00:06,000" := by
  have h : totalMicroseconds (6 : ℚ) = 6000000 := totalMicroseconds_of_int _ _ (by norm_num)
  simp only [format_time, hoursOf, minutesOf, secondsOf, msOf, tdSeconds,
    tdMicroseconds, dayRemainderUs, h]
  decide

lemma ft_ten_point_two : format_time (10.2 : ℚ) = "00:00:10,200" := by
  have h : totalMicroseconds (10.2 : ℚ) = 10200000 :=
    totalMicroseconds_of_int _ _ (by norm_num)
  simp only [format_time, hoursOf, minutesOf, secondsOf, msOf, tdSeconds,
    tdMicroseconds, dayRemainderUs, h]
  decide

lemma ft_hour_case : format_time (3661.25 : ℚ) = "01:01:01,250" := by
  have h : totalMicroseconds (3661.25 : ℚ) = 3661250000 :=
    totalMicroseconds_of_int _ _ (by norm_num)
  simp only [format_time, hoursOf, minutesOf, secondsOf, msOf, tdSeconds,
    tdMicroseconds, dayRemainderUs, h]
  decide

lemma ft_ten_hours : format_time 36000 = "10:00:00,000" := by
  have h : totalMicroseconds (36000 : ℚ) = 36000000000 :=
    totalMicroseconds_of_int _ _ (by norm_num)
  simp only [format_time, hoursOf, minutesOf, secondsOf, msOf, tdSeconds,
    tdMicroseconds, dayRemainderUs, h]
  decide

lemma ft_carry_case : format_time (5.999999999994 : ℚ) = "00:00:06,000" := by
  have h : totalMicroseconds (5.999999999994 : ℚ) = 6000000 := by
    unfold totalMicroseconds roundHalfEven
    have h1 : (5.999999999994 : ℚ) * 1000000 = 5999999999994/1000000 := by norm_num
    have h2 : ⌊(5999999999994/1000000 : ℚ)⌋ = 5999999 := by norm_num [Int.floor_eq_iff]
    rw [h1, h2, if_neg (by norm_num), if_pos (by norm_num)]
    norm_num
  simp only [format_time, hoursOf, minutesOf, secondsOf, msOf, tdSeconds,
    tdMicroseconds, dayRemainderUs, h]
  decide

lemma ft_rounding_case : format_time (0.0009999996 : ℚ) = "00:00:00,001" := by
  have h : totalMicroseconds (0.0009999996 : ℚ) = 1000 := by
    unfold totalMicroseconds roundHalfEven
    have h1 : (0.0009999996 : ℚ) * 1000000 = 2499999/2500 := by norm_num
    have h2 : ⌊(2499999/2500 : ℚ)⌋ = 999 := by norm_num [Int.floor_eq_iff]
    rw [h1, h2, if_neg (by norm_num), if_pos (by norm_num)]
    norm_num
  simp only [format_time, hoursOf, minutesOf, secondsOf, msOf, tdSeconds,
    tdMicroseconds, dayRemainderUs, h]
  decide

lemma roundHalfEven_add_int (q : ℚ) (n : ℤ) (hn : n % 2 = 0) :
    roundHalfEven (q + (n : ℚ)) = roundHalfEven q + n := by
  unfold roundHalfEven
  have hf : ⌊q + (n : ℚ)⌋ = ⌊q⌋ + n := Int.floor_add_int q n
  rw [hf]
  have hr : q + (n : ℚ) - ((⌊q⌋ + n : ℤ) : ℚ) = q - (⌊q⌋ : ℚ) := by
    push_cast
    ring
  rw [hr]
  have hp : (⌊q⌋ + n) % 2 = ⌊q⌋ % 2 := by omega
  rw [hp]
  split_ifs <;> ring

/-- format_time only sees the input modulo one day: adding 86400 seconds
does not change the rendered string. -/
lemma format_time_period (s : ℚ) : format_time (s + 86400) = format_time s := by
  have h1 : totalMicroseconds (s + 86400) = totalMicroseconds s + 86400000000 := by
    unfold totalMicroseconds
    have h : (s + 86400) * 1000000 = s * 1000000 + ((86400000000 : ℤ) : ℚ) := by
      push_cast
      ring
    rw [h, roundHalfEven_add_int _ _ (by norm_num)]
  have h2 : dayRemainderUs (s + 86400) = dayRemainderUs s := by
    unfold dayRemainderUs
    rw [h1]
    congr 1
    show (totalMicroseconds s + 86400000000) % 86400000000
      = totalMicroseconds s % 86400000000
    omega
  unfold format_time hoursOf minutesOf secondsOf msOf tdSeconds tdMicroseconds
  rw [h2]

lemma ft_minus_one : format_time (-1 : ℚ) = "23:59:59,000" := by
  have h : totalMicroseconds (-1 : ℚ) = -1000000 :=
    totalMicroseconds_of_int _ _ (by norm_num)
  simp only [format_time, hoursOf, minutesOf, secondsOf, msOf, tdSeconds,
    tdMicroseconds, dayRemainderUs, h]
  decide

/-- Helper input for the structural-error claim: a chunk without a
timestamp entry. -/
def missingTsChunk : PyVal := .dict [("text", .str "hi")]

/-- Helper input: an object whose single chunk lacks a timestamp. -/
def missingTsData : PyVal := .dict [("chunks", .list [missingTsChunk])]

/-- Helper input: a chunk whose timestamp holds three numbers. -/
def tripleChunk : PyVal :=
  .dict [("timestamp", .list [.num 0, .num 1, .num 2]), ("text", .str "x")]

/-- Helper input: an object whose single chunk has a three-element
timestamp. -/
def tripleData : PyVal := .dict [("chunks", .list [tripleChunk])]

/-- C1: at 450000 seconds the code renders 05:00:00,000, not the
125:00:00,000 of the spec: timedelta .seconds drops whole days, so the
hours field counts hours modulo 24. -/
theorem hours_wrap_at_day : format_time 450000 = "05:00:00,000" := by
  have h : totalMicroseconds (450000 : ℚ) = 450000000000 :=
    totalMicroseconds_of_int _ _ (by norm_num)
  simp only [format_time, hoursOf, minutesOf, secondsOf, msOf, tdSeconds,
    tdMicroseconds, dayRemainderUs, h]
  decide

/-- C6: the four literal formatter cases of the spec. -/
theorem format_time_literal_cases :
    format_time 0 = "00:00:00,000" ∧ format_time (5.5 : ℚ) = "00:00:05,500" ∧
    format_time (3661.25 : ℚ) = "01:01:01,250" ∧
    format_time 36000 = "10:00:00,000" :=
  ⟨ft_zero, ft_five_and_half, ft_hour_case, ft_ten_hours⟩

/-- C3 counterexample: at 0.0009999996 seconds the sub-second remainder is
0.9999996 milliseconds, whose truncation is 0, yet the code renders the
millisecond field 001 because timedelta first rounds to whole
microseconds. -/
theorem ms_truncation_counterexample :
    format_time (0.0009999996 : ℚ) = "00:00:00,001" ∧
    ⌊(0.0009999996 : ℚ) * 1000⌋ = 0 :=
  ⟨ft_rounding_case, by norm_num [Int.floor_eq_iff]⟩

/-- C3 amended: the millisecond field is always at most 999 and equals the
microsecond field of the rounded duration truncated to milliseconds, and
the carry at an integral boundary (input 5.999999999994) folds into the
seconds component instead of overflowing the field. -/
theorem ms_range_and_carry :
    (∀ s : ℚ, msOf s ≤ 999 ∧ msOf s * 1000 ≤ tdMicroseconds s ∧
      tdMicroseconds s < msOf s * 1000 + 1000) ∧
    format_time (5.999999999994 : ℚ) = "00:00:06,000" := by
  constructor
  · intro s
    have h : tdMicroseconds s < 1000000 := by
      unfold tdMicroseconds
      exact Nat.mod_lt _ (by norm_num)
    unfold msOf
    omega
  · exact ft_carry_case

/-- C10: format_time never fails on negative input; the rendering only
depends on the input modulo 86400 seconds, and format_time(-1) is
23:59:59,000. -/
theorem negative_input_wraps_mod_day :
    (∀ s : ℚ, format_time (s + 86400) = format_time s) ∧
    format_time (-1 : ℚ) = "23:59:59,000" :=
  ⟨format_time_period, ft_minus_one⟩

/-- C8: process_object always terminates normally with a report: either
the conversion succeeded, the file system accepted the write and the
success message is printed with the content written, or a failure occurred
and the diagnostic message is printed with nothing recorded as written. -/
theorem writer_reports_all_failures (data : PyVal) (fs : Except String Unit) :
    (∃ srt, convert_object_to_srt data = Except.ok srt ∧ fs = Except.ok () ∧
      process_object data fs =
        ⟨some srt, "SRT file has been saved successfully."⟩) ∨
    (∃ e, (process_object data fs).written = none ∧
      (process_object data fs).message = "Error processing data: " ++ e) := by
  cases hc : convert_object_to_srt data with
  | error e => refine Or.inr ⟨e, ?_, ?_⟩ <;> simp [process_object, hc]
  | ok srt =>
    cases fs with
    | error e => refine Or.inr ⟨e, ?_, ?_⟩ <;> simp [process_object, hc]
    | ok u =>
      cases u
      exact Or.inl ⟨srt, rfl, rfl, by simp [process_object, hc]⟩

/-- C9: the converter output depends on the input object only through its
chunks entry, so the speakers value, present or absent, cannot change the
result. -/
theorem speakers_noninterference (d1 d2 : PyVal)
    (h : pyGetKey d1 "chunks" = pyGetKey d2 "chunks") :
    convert_object_to_srt d1 = convert_object_to_srt d2 := by
  unfold convert_object_to_srt
  rw [h]

/-- Witness for C9 at two concrete objects with different speakers. -/
theorem speakers_noninterference_witness :
    pyGetKey (PyVal.dict [("speakers", PyVal.list [PyVal.str "alice"]),
        ("chunks", PyVal.list [])]) "chunks"
      = pyGetKey (PyVal.dict [("chunks", PyVal.list [])]) "chunks" ∧
    convert_object_to_srt (PyVal.dict [("speakers", PyVal.list [PyVal.str "alice"]),
        ("chunks", PyVal.list [])])
      = convert_object_to_srt (PyVal.dict [("chunks", PyVal.list [])]) :=
  ⟨rfl, speakers_noninterference _ _ rfl⟩

/-- C4: on a well-formed object the converter output is exactly the spec
rendering: per chunk a three-line block of index, time range with both
ends formatted, and trimmed text; one blank line between consecutive
blocks; the last block closed by its line terminator only; empty chunks
give the empty string. -/
theorem converter_renders_spec_blocks (data : PyVal) (cs : List PyVal)
    (vs : List SChunk)
    (h1 : pyGetKey data "chunks" = .ok (.list cs))
    (h2 : viewChunks cs = some vs) :
    convert_object_to_srt data = .ok (srtSpec vs) :=
  convert_view data cs vs h1 h2

/-- Witness for C4 at the example input. -/
theorem converter_renders_spec_blocks_witness :
    pyGetKey exampleData "chunks" = .ok (.list exampleChunks) ∧
    viewChunks exampleChunks = some exampleViews ∧
    convert_object_to_srt exampleData = .ok (srtSpec exampleViews) :=
  ⟨rfl, rfl, converter_renders_spec_blocks exampleData exampleChunks exampleViews rfl rfl⟩

/-- C5: on a well-formed object the output is the join of one block per
chunk, and the block at position i opens with the line holding the index
i + 1, so indices run 1..N in input order. -/
theorem block_count_and_indices (data : PyVal) (cs : List PyVal)
    (vs : List SChunk)
    (h1 : pyGetKey data "chunks" = .ok (.list cs))
    (h2 : viewChunks cs = some vs) :
    ∃ blocks : List String,
      convert_object_to_srt data = .ok (pyJoin "\n" blocks) ∧
      blocks.length = cs.length ∧
      ∀ i, i < blocks.length →
        ∃ rest, blocks.get? i = some (Nat.repr (i + 1) ++ "\n" ++ rest) := by
  have hb := convertChunks_view cs vs h2 1
  refine ⟨(specBlocks 1 vs).map fun b => b ++ "\n", ?_, ?_, ?_⟩
  · simp only [convert_object_to_srt, h1, hb]
  · rw [List.length_map, specBlocks_length, viewChunks_length cs vs h2]
  · intro i hi
    rw [List.length_map, specBlocks_length] at hi
    obtain ⟨v, hv⟩ := specBlocks_get 1 i vs hi
    refine ⟨format_time v.ts0 ++ " --> " ++ format_time v.ts1 ++ "\n"
      ++ stripString v.text ++ "\n", ?_⟩
    rw [List.get?_map, hv, Nat.add_comm 1 i]
    simp [specBlock, String.append_assoc]

/-- Witness for C5 at the example input. -/
theorem block_count_and_indices_witness :
    pyGetKey exampleData "chunks" = .ok (.list exampleChunks) ∧
    viewChunks exampleChunks = some exampleViews ∧
    ∃ blocks : List String,
      convert_object_to_srt exampleData = .ok (pyJoin "\n" blocks) ∧
      blocks.length = exampleChunks.length ∧
      ∀ i, i < blocks.length →
        ∃ rest, blocks.get? i = some (Nat.repr (i + 1) ++ "\n" ++ rest) :=
  ⟨rfl, rfl, block_count_and_indices exampleData exampleChunks exampleViews rfl rfl⟩

/-- C7: the two-chunk example input renders to exactly the two expected
blocks separated by one blank line. -/
theorem end_to_end_example :
    convert_object_to_srt exampleData = .ok
      "1\n00:00:00,000 --> 00:00:05,500\nHello, this is the first subtitle.\n\n2\n00:00:06,000 --> 00:00:10,200\nAnd this is the second one.\n" := by
  have h := convert_view exampleData exampleChunks exampleViews rfl rfl
  rw [h]
  simp only [srtSpec, specBlocks, specBlock, pyJoin, exampleViews, ft_zero,
    ft_five_and_half, ft_six, ft_ten_point_two]
  rfl

/-- C2 counterexample: a timestamp that is a three-element list, hence not
a 2-element ordered pair, is accepted: the converter returns a normal
result built from the first two elements instead of raising a structural
error. -/
theorem timestamp_triple_accepted :
    convert_object_to_srt tripleData = .ok "1\n00:00:00,000 --> 00:00:01,000\nx\n" := by
  have h := convert_view tripleData [tripleChunk] [⟨0, 1, "x"⟩] rfl rfl
  rw [h]
  simp only [srtSpec, specBlocks, specBlock, pyJoin, ft_zero, ft_one]
  rfl

/-- C2 amended: when the chunks entry is missing, or some chunk lacks a
timestamp or text entry, or some chunk timestamp has no numeric element at
position 0 or at position 1, the conversion aborts with an error and
process_object records no written output. -/
theorem structural_error_aborts (data : PyVal)
    (h : (∃ e, pyGetKey data "chunks" = .error e) ∨
      ∃ cs c, pyGetKey data "chunks" = .ok (.list cs) ∧ c ∈ cs ∧
        chunkStructBad c = true) :
    (∃ e, convert_object_to_srt data = .error e) ∧
    ∀ fs, (process_object data fs).written = none := by
  have herr : ∃ e, convert_object_to_srt data = .error e := by
    cases h with
    | inl h =>
      obtain ⟨e, he⟩ := h
      exact ⟨e, by simp [convert_object_to_srt, he]⟩
    | inr h =>
      obtain ⟨cs, c, hcs, hmem, hbad⟩ := h
      obtain ⟨e, he⟩ := convertChunks_bad cs c hmem hbad 1
      exact ⟨e, by simp [convert_object_to_srt, hcs, he]⟩
  obtain ⟨e, he⟩ := herr
  exact ⟨⟨e, he⟩, fun fs => by simp [process_object, he]⟩

/-- Witness for C2 at an object whose single chunk lacks a timestamp. -/
theorem structural_error_aborts_witness :
    chunkStructBad missingTsChunk = true ∧
    (∃ e, convert_object_to_srt missingTsData = .error e) ∧
    ∀ fs, (process_object missingTsData fs).written = none :=
  ⟨rfl, structural_error_aborts missingTsData
    (Or.inr ⟨[missingTsChunk], missingTsChunk, rfl, List.Mem.head _, rfl⟩)⟩
